import Mathlib

/-!
Shallow embedding of the account-security state machine of
`core_apps/user_auth/models.py` (class `User`): the OTP fields and
operations (`set_otp`, `verify_otp`) and the failed-login / lockout
machinery (`handle_failed_login_attempts`, `reset_failed_login_attempts`,
`unlock_account`, `is_locked_out`).

Modelling conventions:
* Timestamps and durations are `Int` (the code only compares and
  subtracts `datetime` values, which is a linear order with subtraction).
* Django's nullable fields become `Option`; the CharField `otp` is
  `Option String` (`NULL` is `none`, the empty string is `some ""` —
  the code assigns `self.otp = ""` after a successful verification,
  which is distinct from `NULL`).
* `timezone.now()` is passed explicitly as a `now : Int` argument at each
  point the code reads the clock.
* Side effects (`self.save()`, `send_account_locked_email(self)`) are
  recorded in an explicit effect trace returned alongside the new state.
* Python raising `TypeError` (comparing `None` with a `datetime`) is
  modelled with `Except PyError`; the object's fields are unchanged when
  the exception propagates, because the code mutates only after the
  comparison succeeded.
* Django settings (`OTP_EXPIRY_TIME`, `MAX_FAILED_LOGIN_ATTEMPTS`,
  `LOCKOUT_DURATION`) are externally supplied constants, modelled as a
  `Config` parameter.
-/

namespace SchoolAuth

/-- `User.AccountStatus` (models.py lines 34-42): the two account states. -/
inductive AccountStatus where
  | ACTIVE : AccountStatus
  | LOCKED : AccountStatus
deriving Repr, DecidableEq

/-- The security-relevant fields of the `User` model (models.py):
`otp`, `otp_expiry_time`, `failed_login_attempts`, `last_failed_login`,
`account_status`. -/
structure UserState where
  otp : Option String
  otp_expiry_time : Option Int
  failed_login_attempts : Nat
  last_failed_login : Option Int
  account_status : AccountStatus
deriving Repr, DecidableEq

/-- The externally supplied Django settings the methods read. -/
structure Config where
  OTP_EXPIRY_TIME : Int
  MAX_FAILED_LOGIN_ATTEMPTS : Nat
  LOCKOUT_DURATION : Int
deriving Repr, DecidableEq

/-- Side effects performed by the methods: `self.save()` and
`send_account_locked_email(self)` (emails.py line 45). -/
inductive Effect where
  | save : Effect
  | sendAccountLockedEmail : Effect
deriving Repr, DecidableEq

/-- The only exception the modelled code can raise: Python's `TypeError`
from comparing `None` with a `datetime` in `verify_otp`. -/
inductive PyError where
  | typeError : PyError
deriving Repr, DecidableEq

/-- A fresh record: `otp` and `otp_expiry_time` are `NULL`
(`null=True` fields), `failed_login_attempts` defaults to `0`,
`last_failed_login` is `NULL`, `account_status` defaults to `ACTIVE`. -/
def initialState : UserState :=
  { otp := none
    otp_expiry_time := none
    failed_login_attempts := 0
    last_failed_login := none
    account_status := AccountStatus.ACTIVE }

/-- Python equality `self.otp == otp` between the nullable stored field
and a candidate string: `None == s` is `False`, `s1 == s2` is string
equality. -/
def pyEqOptStr : Option String → String → Bool
  | none, _ => false
  | some s, c => s == c

/-- `User.set_otp` (models.py lines 164-176): stores the code, sets
`otp_expiry_time = timezone.now() + settings.OTP_EXPIRY_TIME`, saves. -/
def set_otp (cfg : Config) (s : UserState) (otp : String) (now : Int) :
    UserState × List Effect :=
  ({ s with otp := some otp, otp_expiry_time := some (now + cfg.OTP_EXPIRY_TIME) },
   [Effect.save])

/-- `User.verify_otp` (models.py lines 178-197):
`if self.otp == otp and self.otp_expiry_time > timezone.now():` clears
`otp` to the empty string, clears `otp_expiry_time`, saves and returns
`True`; otherwise returns `False`.  When `self.otp == otp` holds but
`self.otp_expiry_time` is `None`, Python raises `TypeError` on the
`None > datetime` comparison before any mutation. -/
def verify_otp (s : UserState) (otp : String) (now : Int) :
    Except PyError (Bool × UserState × List Effect) :=
  if pyEqOptStr s.otp otp then
    match s.otp_expiry_time with
    | none => Except.error PyError.typeError
    | some expiry =>
        if expiry > now then
          Except.ok (true,
            { s with otp := some "", otp_expiry_time := none },
            [Effect.save])
        else
          Except.ok (false, s, [])
  else
    Except.ok (false, s, [])

/-- `User.handle_failed_login_attempts` (models.py lines 199-219):
increments the counter, stamps `last_failed_login = timezone.now()`;
if the new counter reaches `settings.MAX_FAILED_LOGIN_ATTEMPTS`, sets
`account_status = LOCKED`, saves, and sends the account-locked email;
finally saves unconditionally. -/
def handle_failed_login_attempts (cfg : Config) (s : UserState) (now : Int) :
    UserState × List Effect :=
  let s1 := { s with
    failed_login_attempts := s.failed_login_attempts + 1
    last_failed_login := some now }
  if s1.failed_login_attempts ≥ cfg.MAX_FAILED_LOGIN_ATTEMPTS then
    ({ s1 with account_status := AccountStatus.LOCKED },
     [Effect.save, Effect.sendAccountLockedEmail, Effect.save])
  else
    (s1, [Effect.save])

/-- `User.reset_failed_login_attempts` (models.py lines 221-231):
zeroes the counter, clears the timestamp, sets `ACTIVE`, saves. -/
def reset_failed_login_attempts (s : UserState) : UserState × List Effect :=
  ({ s with
      failed_login_attempts := 0
      last_failed_login := none
      account_status := AccountStatus.ACTIVE },
   [Effect.save])

/-- `User.unlock_account` (models.py lines 233-244): only when the
account is `LOCKED`, sets `ACTIVE`, zeroes the counter, clears the
timestamp and saves; otherwise does nothing. -/
def unlock_account (s : UserState) : UserState × List Effect :=
  if s.account_status = AccountStatus.LOCKED then
    ({ s with
        account_status := AccountStatus.ACTIVE
        failed_login_attempts := 0
        last_failed_login := none },
     [Effect.save])
  else
    (s, [])

/-- `User.is_locked_out` (models.py lines 246-263): for a `LOCKED`
account whose `last_failed_login` is set (a `datetime` is always truthy)
and older than `settings.LOCKOUT_DURATION`, unlocks and returns `False`;
for any other `LOCKED` account returns `True`; for an `ACTIVE` account
returns `False`. -/
def is_locked_out (cfg : Config) (s : UserState) (now : Int) :
    Bool × UserState × List Effect :=
  if s.account_status = AccountStatus.LOCKED then
    match s.last_failed_login with
    | some t =>
        if now - t > cfg.LOCKOUT_DURATION then
          let r := unlock_account s
          (false, r.1, r.2)
        else
          (true, s, [])
    | none => (true, s, [])
  else
    (false, s, [])

/-- Sequencing of `handle_failed_login_attempts` calls at the given
clock readings, accumulating the effect trace. -/
def runFailedAttempts (cfg : Config) (s : UserState) :
    List Int → UserState × List Effect
  | [] => (s, [])
  | now :: rest =>
      let r1 := handle_failed_login_attempts cfg s now
      let r2 := runFailedAttempts cfg r1.1 rest
      (r2.1, r1.2 ++ r2.2)

/-- One step of the state machine: any of the six operations, invoked at
an arbitrary clock reading.  `P` constrains the codes passed to
`set_otp` (the spec issues non-empty codes; `fun _ => True` places no
constraint).  A `verify_otp` call that raises propagates the exception
with the object unchanged, so it contributes no new state. -/
inductive Step (cfg : Config) (P : String → Prop) : UserState → UserState → Prop where
  | set_otp_step (s : UserState) (code : String) (now : Int) (hP : P code) :
      Step cfg P s (set_otp cfg s code now).1
  | verify_otp_step (s : UserState) (code : String) (now : Int)
      (b : Bool) (s' : UserState) (eff : List Effect)
      (h : verify_otp s code now = Except.ok (b, s', eff)) :
      Step cfg P s s'
  | handle_step (s : UserState) (now : Int) :
      Step cfg P s (handle_failed_login_attempts cfg s now).1
  | reset_step (s : UserState) :
      Step cfg P s (reset_failed_login_attempts s).1
  | unlock_step (s : UserState) :
      Step cfg P s (unlock_account s).1
  | locked_out_step (s : UserState) (now : Int) :
      Step cfg P s (is_locked_out cfg s now).2.1

/-- States reachable from the fresh record by the operations. -/
def Reachable (cfg : Config) (P : String → Prop) (s : UserState) : Prop :=
  Relation.ReflTransGen (Step cfg P) initialState s

/-- The record holds a pending OTP: a non-empty, not-yet-consumed code
(`None` and the consumed empty string both count as no pending OTP). -/
def otpPending (s : UserState) : Prop :=
  ∃ c, s.otp = some c ∧ c ≠ ""

/-- Whether `verify_otp` returns `True` (an exception is not a `True`
return). -/
def verify_otp_succeeds (s : UserState) (otp : String) (now : Int) : Bool :=
  match verify_otp s otp now with
  | Except.ok (b, _, _) => b
  | Except.error _ => false

/-- A concrete configuration with the spec's scenario values:
OTP TTL 300 s, `MAX_FAILED_ATTEMPTS = 3`, lockout duration 1800 s. -/
def cfg3 : Config :=
  { OTP_EXPIRY_TIME := 300
    MAX_FAILED_LOGIN_ATTEMPTS := 3
    LOCKOUT_DURATION := 1800 }

/-- A configuration that locks after a single failed attempt. -/
def cfg1 : Config :=
  { OTP_EXPIRY_TIME := 300
    MAX_FAILED_LOGIN_ATTEMPTS := 1
    LOCKOUT_DURATION := 1800 }

/-! ### Characterisation of `verify_otp`'s outcomes -/

/-- A `False` return from `verify_otp` leaves the record unchanged and
performs no save. -/
theorem verify_otp_false_eq {s s' : UserState} {c : String} {now : Int}
    {eff : List Effect}
    (h : verify_otp s c now = Except.ok (false, s', eff)) :
    s' = s ∧ eff = [] := by
  unfold verify_otp at h
  split at h
  · split at h
    · exact absurd h (by simp)
    · split at h
      · exact absurd h (by simp)
      · simp only [Except.ok.injEq, Prod.mk.injEq, true_and] at h
        exact ⟨h.1.symm, h.2.symm⟩
  · simp only [Except.ok.injEq, Prod.mk.injEq, true_and] at h
    exact ⟨h.1.symm, h.2.symm⟩

/-- A `True` return from `verify_otp` yields exactly the state with the
OTP cleared to the empty string and the expiry cleared, after one save. -/
theorem verify_otp_true_eq {s s' : UserState} {c : String} {now : Int}
    {eff : List Effect}
    (h : verify_otp s c now = Except.ok (true, s', eff)) :
    s' = { s with otp := some "", otp_expiry_time := none }
      ∧ eff = [Effect.save] := by
  unfold verify_otp at h
  split at h
  · split at h
    · exact absurd h (by simp)
    · split at h
      · simp only [Except.ok.injEq, Prod.mk.injEq, true_and] at h
        exact ⟨h.1.symm, h.2.symm⟩
      · exact absurd h (by simp)
  · exact absurd h (by simp)

/-! ### Field-preservation facts for the lockout operations -/

/-- `handle_failed_login_attempts` never touches the OTP fields. -/
theorem handle_preserves_otp (cfg : Config) (s : UserState) (now : Int) :
    (handle_failed_login_attempts cfg s now).1.otp = s.otp
      ∧ (handle_failed_login_attempts cfg s now).1.otp_expiry_time
          = s.otp_expiry_time := by
  unfold handle_failed_login_attempts
  dsimp only
  split <;> simp

/-- `handle_failed_login_attempts` always stamps `last_failed_login`. -/
theorem handle_sets_last_failed (cfg : Config) (s : UserState) (now : Int) :
    (handle_failed_login_attempts cfg s now).1.last_failed_login = some now := by
  unfold handle_failed_login_attempts
  dsimp only
  split <;> simp

/-- `reset_failed_login_attempts` never touches the OTP fields. -/
theorem reset_preserves_otp (s : UserState) :
    (reset_failed_login_attempts s).1.otp = s.otp
      ∧ (reset_failed_login_attempts s).1.otp_expiry_time
          = s.otp_expiry_time := by
  unfold reset_failed_login_attempts
  simp

/-- `unlock_account` never touches the OTP fields. -/
theorem unlock_preserves_otp (s : UserState) :
    (unlock_account s).1.otp = s.otp
      ∧ (unlock_account s).1.otp_expiry_time = s.otp_expiry_time := by
  unfold unlock_account
  split <;> simp

/-- After `unlock_account` the status is `ACTIVE` or unchanged, and the
state is either the reset one or untouched. -/
theorem unlock_cases (s : UserState) :
    (unlock_account s).1 = s
      ∨ (unlock_account s).1.account_status = AccountStatus.ACTIVE := by
  unfold unlock_account
  split <;> simp

/-- The state returned by `is_locked_out` is the input state or the
unlocked one. -/
theorem is_locked_out_state_cases (cfg : Config) (s : UserState) (now : Int) :
    (is_locked_out cfg s now).2.1 = s
      ∨ (is_locked_out cfg s now).2.1 = (unlock_account s).1 := by
  unfold is_locked_out
  split
  · split
    · split <;> simp
    · simp
  · simp

/-- `handle_failed_login_attempts` increments the counter by one. -/
theorem handle_count (cfg : Config) (s : UserState) (now : Int) :
    (handle_failed_login_attempts cfg s now).1.failed_login_attempts
      = s.failed_login_attempts + 1 := by
  unfold handle_failed_login_attempts
  dsimp only
  split <;> simp

/-- `handle_failed_login_attempts` keeps the account status in step with
the threshold formula. -/
theorem handle_status (cfg : Config) (s : UserState) (now : Int)
    (hstat : s.account_status =
      (if cfg.MAX_FAILED_LOGIN_ATTEMPTS ≤ s.failed_login_attempts then
        AccountStatus.LOCKED else AccountStatus.ACTIVE)) :
    (handle_failed_login_attempts cfg s now).1.account_status =
      (if cfg.MAX_FAILED_LOGIN_ATTEMPTS ≤ s.failed_login_attempts + 1 then
        AccountStatus.LOCKED else AccountStatus.ACTIVE) := by
  unfold handle_failed_login_attempts
  dsimp only
  by_cases h : cfg.MAX_FAILED_LOGIN_ATTEMPTS ≤ s.failed_login_attempts + 1
  · simp [h]
  · simp [h]
    rw [hstat, if_neg (by omega)]

/-- Every `handle_failed_login_attempts` call performs at least one save. -/
theorem handle_saves (cfg : Config) (s : UserState) (now : Int) :
    1 ≤ (handle_failed_login_attempts cfg s now).2.count Effect.save := by
  unfold handle_failed_login_attempts
  dsimp only
  split <;> simp [List.count_cons]

/-- Unfolding of `runFailedAttempts` on a non-empty list. -/
theorem runFailedAttempts_cons (cfg : Config) (s : UserState) (now : Int)
    (rest : List Int) :
    runFailedAttempts cfg s (now :: rest)
      = ((runFailedAttempts cfg
            (handle_failed_login_attempts cfg s now).1 rest).1,
         (handle_failed_login_attempts cfg s now).2
           ++ (runFailedAttempts cfg
                (handle_failed_login_attempts cfg s now).1 rest).2) := rfl

/-- Behaviour of a whole run of `handle_failed_login_attempts` calls,
generalised over the starting state for the induction. -/
theorem runFailedAttempts_spec (cfg : Config) (times : List Int)
    (s : UserState)
    (hstat : s.account_status =
      (if cfg.MAX_FAILED_LOGIN_ATTEMPTS ≤ s.failed_login_attempts then
        AccountStatus.LOCKED else AccountStatus.ACTIVE)) :
    (runFailedAttempts cfg s times).1.failed_login_attempts
        = s.failed_login_attempts + times.length
    ∧ (runFailedAttempts cfg s times).1.account_status =
        (if cfg.MAX_FAILED_LOGIN_ATTEMPTS
            ≤ s.failed_login_attempts + times.length then
          AccountStatus.LOCKED else AccountStatus.ACTIVE)
    ∧ (times = [] →
        (runFailedAttempts cfg s times).1.last_failed_login
          = s.last_failed_login)
    ∧ (∀ t, times.getLast? = some t →
        (runFailedAttempts cfg s times).1.last_failed_login = some t)
    ∧ times.length
        ≤ (runFailedAttempts cfg s times).2.count Effect.save := by
  induction times generalizing s with
  | nil =>
      refine ⟨rfl, by simpa using hstat, fun _ => rfl, ?_, by simp [runFailedAttempts]⟩
      intro t ht
      simp at ht
  | cons now rest ih =>
      have hs1 := handle_status cfg s now hstat
      rw [← handle_count cfg s now] at hs1
      have H := ih (handle_failed_login_attempts cfg s now).1 hs1
      rw [runFailedAttempts_cons]
      dsimp only
      have hlen : s.failed_login_attempts + 1 + rest.length
          = s.failed_login_attempts + (now :: rest).length := by
        simp
        omega
      refine ⟨?_, ?_, ?_, ?_, ?_⟩
      · rw [H.1, handle_count, hlen]
      · rw [H.2.1, handle_count, hlen]
      · intro h
        exact absurd h (by simp)
      · intro t ht
        rcases rest with _ | ⟨b, l⟩
        · simp at ht
          subst ht
          have : runFailedAttempts cfg
              (handle_failed_login_attempts cfg s now).1 [] =
              ((handle_failed_login_attempts cfg s now).1, []) := rfl
          rw [this]
          exact handle_sets_last_failed cfg s now
        · rw [List.getLast?_cons_cons] at ht
          exact H.2.2.2.1 t ht
      · rw [List.count_append]
        have h1 := handle_saves cfg s now
        have h2 := H.2.2.2.2
        simp only [List.length_cons]
        omega

/-! ### Claim theorems -/

/-- C1: the claim says `send_account_locked_email` fires exactly once per
ACTIVE→LOCKED transition and never again while the account is already
LOCKED.  The code has no such guard: with `MAX_FAILED_LOGIN_ATTEMPTS = 3`,
three calls from a fresh record lock the account and send one email, but a
fourth call — made while the account is already LOCKED, with no new
transition — sends a second email. -/
theorem lockout_email_resent_while_locked :
    (runFailedAttempts cfg3 initialState [0, 1, 2]).1.account_status
        = AccountStatus.LOCKED
    ∧ (runFailedAttempts cfg3 initialState [0, 1, 2]).2.count
        Effect.sendAccountLockedEmail = 1
    ∧ (runFailedAttempts cfg3 initialState [0, 1, 2, 3]).1.account_status
        = AccountStatus.LOCKED
    ∧ (runFailedAttempts cfg3 initialState [0, 1, 2, 3]).2.count
        Effect.sendAccountLockedEmail = 2 := by
  exact ⟨rfl, rfl, rfl, rfl⟩

/-- C2 counterexample: with the stored OTP "483920" expiring at time 300,
a matching `verify_otp` call at `now = 300` returns `False`, yet the
claim ("true iff candidate equals the stored otp AND now ≤ otp_expiry")
demands `True` there, since `300 ≤ 300`. -/
theorem verify_otp_boundary_cex :
    ¬ ((verify_otp_succeeds
          ⟨some "483920", some 300, 0, none, AccountStatus.ACTIVE⟩
          "483920" 300 = true)
        ↔ (pyEqOptStr (some "483920") "483920" = true ∧ (300 : Int) ≤ 300)) := by
  decide

/-- C2 (amended): for a record whose `otp` and `otp_expiry_time` are both
set, `verify_otp(candidate)` returns `True` iff the candidate equals the
stored otp AND `now` is strictly before `otp_expiry_time` (at
`now = otp_expiry_time` exactly it returns `False`). -/
theorem verify_otp_true_iff (o c : String) (e now : Int) (f : Nat)
    (l : Option Int) (st : AccountStatus) :
    verify_otp_succeeds ⟨some o, some e, f, l, st⟩ c now = true
      ↔ (c = o ∧ now < e) := by
  unfold verify_otp_succeeds verify_otp pyEqOptStr
  by_cases hc : o = c
  · subst hc
    by_cases he : e > now <;> simp [he]
  · have : (o == c) = false := by
      simp [hc]
    simp [this]
    intro h
    exact absurd h.symm hc

/-- C3: the claim says `verify_otp` never raises, for every record state
(including the state reached after a successful verification) and every
candidate.  In the code, a successful verification leaves
`otp = ""` and `otp_expiry_time = None`; a subsequent call with the empty
candidate then satisfies `self.otp == otp` and evaluates
`None > timezone.now()`, which raises `TypeError`. -/
theorem verify_otp_typeerror_after_success :
    verify_otp (set_otp cfg3 initialState "483920" 0).1 "483920" 100
      = Except.ok (true,
          ⟨some "", none, 0, none, AccountStatus.ACTIVE⟩, [Effect.save])
    ∧ verify_otp ⟨some "", none, 0, none, AccountStatus.ACTIVE⟩ "" 200
      = Except.error PyError.typeError := by
  exact ⟨rfl, rfl⟩

/-- C8: whenever `verify_otp` returns `False`, every field of the record
keeps its prior value and no save is performed. -/
theorem verify_otp_failure_frame (s s' : UserState) (c : String) (now : Int)
    (eff : List Effect)
    (h : verify_otp s c now = Except.ok (false, s', eff)) :
    s'.otp = s.otp
    ∧ s'.otp_expiry_time = s.otp_expiry_time
    ∧ s'.failed_login_attempts = s.failed_login_attempts
    ∧ s'.last_failed_login = s.last_failed_login
    ∧ s'.account_status = s.account_status
    ∧ eff = [] := by
  obtain ⟨h1, h2⟩ := verify_otp_false_eq h
  subst h1
  exact ⟨rfl, rfl, rfl, rfl, rfl, h2⟩

/-- Witness for C8: a concrete expired-OTP call returning `False`. -/
theorem verify_otp_failure_frame_witness :
    (verify_otp ⟨some "483920", some 300, 2, some 5, AccountStatus.ACTIVE⟩
        "483920" 400
      = Except.ok (false,
          ⟨some "483920", some 300, 2, some 5, AccountStatus.ACTIVE⟩, []))
    ∧ ((⟨some "483920", some 300, 2, some 5, AccountStatus.ACTIVE⟩
          : UserState).otp = some "483920"
       ∧ (⟨some "483920", some 300, 2, some 5, AccountStatus.ACTIVE⟩
            : UserState).otp_expiry_time = some 300
       ∧ (⟨some "483920", some 300, 2, some 5, AccountStatus.ACTIVE⟩
            : UserState).failed_login_attempts = 2
       ∧ (⟨some "483920", some 300, 2, some 5, AccountStatus.ACTIVE⟩
            : UserState).last_failed_login = some 5
       ∧ (⟨some "483920", some 300, 2, some 5, AccountStatus.ACTIVE⟩
            : UserState).account_status = AccountStatus.ACTIVE
       ∧ ([] : List Effect) = []) :=
  ⟨rfl, verify_otp_failure_frame
    ⟨some "483920", some 300, 2, some 5, AccountStatus.ACTIVE⟩
    ⟨some "483920", some 300, 2, some 5, AccountStatus.ACTIVE⟩
    "483920" 400 [] rfl⟩

/-- C5: starting from a fresh record and any sequence of
`handle_failed_login_attempts` calls, the counter equals the number of
calls, the status is `ACTIVE` below the threshold and `LOCKED` from the
threshold on, `last_failed_login` is the time of the last call, and every
call performed at least one save. -/
theorem failed_attempt_counting (cfg : Config)
    (hmax : 1 ≤ cfg.MAX_FAILED_LOGIN_ATTEMPTS) (times : List Int) :
    (runFailedAttempts cfg initialState times).1.failed_login_attempts
        = times.length
    ∧ (runFailedAttempts cfg initialState times).1.account_status
        = (if cfg.MAX_FAILED_LOGIN_ATTEMPTS ≤ times.length then
            AccountStatus.LOCKED else AccountStatus.ACTIVE)
    ∧ (runFailedAttempts cfg initialState times).1.last_failed_login
        = times.getLast?
    ∧ times.length
        ≤ (runFailedAttempts cfg initialState times).2.count Effect.save := by
  have hstat0 : initialState.account_status =
      (if cfg.MAX_FAILED_LOGIN_ATTEMPTS ≤ initialState.failed_login_attempts
        then AccountStatus.LOCKED else AccountStatus.ACTIVE) := by
    have h0 : ¬ cfg.MAX_FAILED_LOGIN_ATTEMPTS
        ≤ initialState.failed_login_attempts := by
      simp [initialState]
      omega
    rw [if_neg h0]
    rfl
  have H := runFailedAttempts_spec cfg times initialState hstat0
  refine ⟨?_, ?_, ?_, H.2.2.2.2⟩
  · rw [H.1]
    simp [initialState]
  · rw [H.2.1]
    simp [initialState]
  · cases ht : times.getLast? with
    | none =>
        have hnil : times = [] := List.getLast?_eq_none_iff.mp ht
        subst hnil
        exact H.2.2.1 rfl
    | some t => exact H.2.2.2.1 t ht

/-- Witness for C5: four failed attempts under a threshold of three. -/
theorem failed_attempt_counting_witness :
    (1 ≤ cfg3.MAX_FAILED_LOGIN_ATTEMPTS)
    ∧ ((runFailedAttempts cfg3 initialState
          ([10, 20, 30, 40] : List Int)).1.failed_login_attempts
        = ([10, 20, 30, 40] : List Int).length
      ∧ (runFailedAttempts cfg3 initialState
            ([10, 20, 30, 40] : List Int)).1.account_status
        = (if cfg3.MAX_FAILED_LOGIN_ATTEMPTS
              ≤ ([10, 20, 30, 40] : List Int).length then
            AccountStatus.LOCKED else AccountStatus.ACTIVE)
      ∧ (runFailedAttempts cfg3 initialState
            ([10, 20, 30, 40] : List Int)).1.last_failed_login
        = ([10, 20, 30, 40] : List Int).getLast?
      ∧ ([10, 20, 30, 40] : List Int).length
        ≤ (runFailedAttempts cfg3 initialState
            ([10, 20, 30, 40] : List Int)).2.count Effect.save) :=
  ⟨by decide, failed_attempt_counting cfg3 (by decide) [10, 20, 30, 40]⟩

/-- C4: once a non-empty OTP code has been issued by `set_otp` and
successfully verified, a second `verify_otp` call with the same code
returns `False` (the stored OTP is now the empty string, which cannot
equal the non-empty code): an OTP cannot be replayed. -/
theorem otp_not_replayable (cfg : Config) (s s' : UserState) (code : String)
    (eff : List Effect) (t0 t1 t2 : Int) (hcode : code ≠ "")
    (hv : verify_otp (set_otp cfg s code t0).1 code t1
            = Except.ok (true, s', eff)) :
    verify_otp s' code t2 = Except.ok (false, s', []) := by
  obtain ⟨h1, -⟩ := verify_otp_true_eq hv
  subst h1
  have hne : ("" == code) = false := beq_eq_false_iff_ne.mpr (Ne.symm hcode)
  unfold verify_otp pyEqOptStr
  simp [hne]

/-- Witness for C4: the spec scenario, OTP "483920" with TTL 300 issued
at time 0, verified at time 100, replayed at time 200. -/
theorem otp_not_replayable_witness :
    (("483920" : String) ≠ "")
    ∧ (verify_otp (set_otp cfg3 initialState "483920" 0).1 "483920" 100
        = Except.ok (true,
            ⟨some "", none, 0, none, AccountStatus.ACTIVE⟩, [Effect.save]))
    ∧ verify_otp ⟨some "", none, 0, none, AccountStatus.ACTIVE⟩ "483920" 200
        = Except.ok (false,
            ⟨some "", none, 0, none, AccountStatus.ACTIVE⟩, []) :=
  ⟨by decide, rfl,
    otp_not_replayable cfg3 initialState
      ⟨some "", none, 0, none, AccountStatus.ACTIVE⟩
      "483920" [Effect.save] 0 100 200 (by decide) rfl⟩

/-- C6: `is_locked_out` on an `ACTIVE` record returns `False` and changes
nothing; on a `LOCKED` record with `last_failed_login = some t` it unlocks
(counter zeroed, timestamp cleared, one save) and returns `False` when
`now - t` exceeds `LOCKOUT_DURATION`, and otherwise returns `True` and
changes nothing. -/
theorem is_locked_out_spec (cfg : Config) (s : UserState) (now : Int) :
    (s.account_status = AccountStatus.ACTIVE →
      is_locked_out cfg s now = (false, s, []))
    ∧ (∀ t, s.account_status = AccountStatus.LOCKED →
        s.last_failed_login = some t →
        ((cfg.LOCKOUT_DURATION < now - t →
            is_locked_out cfg s now =
              (false,
               { s with account_status := AccountStatus.ACTIVE
                        failed_login_attempts := 0
                        last_failed_login := none },
               [Effect.save]))
         ∧ (¬ cfg.LOCKOUT_DURATION < now - t →
            is_locked_out cfg s now = (true, s, [])))) := by
  constructor
  · intro h
    unfold is_locked_out
    rw [h]
    simp
  · intro t hl hlast
    constructor
    · intro hd
      unfold is_locked_out unlock_account
      rw [hl, hlast]
      simp [hd]
    · intro hd
      unfold is_locked_out
      rw [hl, hlast]
      simp [hd]

/-- Witness for C6: a locked record whose last failure is older than the
lockout duration is unlocked by the read and reported not locked out. -/
theorem is_locked_out_spec_witness :
    is_locked_out cfg3 ⟨none, none, 3, some 0, AccountStatus.LOCKED⟩ 2000
      = (false, ⟨none, none, 0, none, AccountStatus.ACTIVE⟩, [Effect.save]) :=
  ((is_locked_out_spec cfg3
      ⟨none, none, 3, some 0, AccountStatus.LOCKED⟩ 2000).2
    0 rfl rfl).1 (by decide)

/-- C7 counterexample: the state with `failed_login_attempts = 2`,
`last_failed_login = some 5` and `account_status = ACTIVE` arises from two
failed attempts under `MAX_FAILED_LOGIN_ATTEMPTS = 3`; `unlock_account`
on it is a no-op, so afterwards the counter is still `2` and the
timestamp still set — contradicting the claim that after `unlock` the
record always satisfies `failed_login_attempts = 0` and
`last_failed_login = None`. -/
theorem unlock_on_active_keeps_state_cex :
    (runFailedAttempts cfg3 initialState [0, 5]).1
        = ⟨none, none, 2, some 5, AccountStatus.ACTIVE⟩
    ∧ ¬ ((unlock_account
            ⟨none, none, 2, some 5, AccountStatus.ACTIVE⟩).1.failed_login_attempts
              = 0
         ∧ (unlock_account
              ⟨none, none, 2, some 5, AccountStatus.ACTIVE⟩).1.last_failed_login
              = none) := by
  decide

/-- C7 (amended): after `reset_failed_login_attempts` the record always
has a zero counter, a cleared timestamp and `ACTIVE` status; after
`unlock_account` on a `LOCKED` record likewise; `unlock_account` on an
already-`ACTIVE` record is a true no-op: the state is returned unchanged
and no save or notification is performed. -/
theorem reset_and_unlock_spec (s : UserState) :
    ((reset_failed_login_attempts s).1.failed_login_attempts = 0
      ∧ (reset_failed_login_attempts s).1.last_failed_login = none
      ∧ (reset_failed_login_attempts s).1.account_status
          = AccountStatus.ACTIVE)
    ∧ (s.account_status = AccountStatus.LOCKED →
        (unlock_account s).1.failed_login_attempts = 0
        ∧ (unlock_account s).1.last_failed_login = none
        ∧ (unlock_account s).1.account_status = AccountStatus.ACTIVE)
    ∧ (s.account_status = AccountStatus.ACTIVE → unlock_account s = (s, [])) := by
  refine ⟨⟨rfl, rfl, rfl⟩, ?_, ?_⟩
  · intro h
    unfold unlock_account
    rw [h]
    simp
  · intro h
    unfold unlock_account
    rw [h]
    simp

/-- Witness for C7: unlocking a concrete locked record zeroes the counter,
clears the timestamp and reactivates the account. -/
theorem reset_and_unlock_spec_witness :
    (unlock_account
        ⟨none, none, 3, some 7, AccountStatus.LOCKED⟩).1.failed_login_attempts
          = 0
    ∧ (unlock_account
        ⟨none, none, 3, some 7, AccountStatus.LOCKED⟩).1.last_failed_login
          = none
    ∧ (unlock_account
        ⟨none, none, 3, some 7, AccountStatus.LOCKED⟩).1.account_status
          = AccountStatus.ACTIVE :=
  (reset_and_unlock_spec ⟨none, none, 3, some 7, AccountStatus.LOCKED⟩).2.1 rfl

/-- C9: in every state reachable from the fresh record by the six
operations (with `set_otp` only issuing non-empty codes, as the spec's
issuance operation does), `otp_expiry_time` is set if and only if the
record holds a non-empty, not-yet-consumed OTP code. -/
theorem otp_expiry_iff_pending (cfg : Config) (s : UserState)
    (h : Reachable cfg (fun c => c ≠ "") s) :
    s.otp_expiry_time ≠ none ↔ otpPending s := by
  induction h with
  | refl => simp [initialState, otpPending]
  | @tail s0 s1 _ hstep ih =>
      cases hstep with
      | set_otp_step code now hP =>
          simp [set_otp, otpPending]
          exact hP
      | verify_otp_step code now b s' eff hv =>
          cases b with
          | true =>
              obtain ⟨h1, -⟩ := verify_otp_true_eq hv
              subst h1
              simp [otpPending]
          | false =>
              obtain ⟨h1, -⟩ := verify_otp_false_eq hv
              subst h1
              exact ih
      | handle_step now =>
          have hp := handle_preserves_otp cfg s0 now
          simp only [otpPending] at ih ⊢
          rw [hp.1, hp.2]
          exact ih
      | reset_step =>
          have hp := reset_preserves_otp s0
          simp only [otpPending] at ih ⊢
          rw [hp.1, hp.2]
          exact ih
      | unlock_step =>
          have hp := unlock_preserves_otp s0
          simp only [otpPending] at ih ⊢
          rw [hp.1, hp.2]
          exact ih
      | locked_out_step now =>
          rcases is_locked_out_state_cases cfg s0 now with hcase | hcase
          · rw [hcase]
            exact ih
          · rw [hcase]
            have hp := unlock_preserves_otp s0
            simp only [otpPending] at ih ⊢
            rw [hp.1, hp.2]
            exact ih

/-- Witness for C9: the invariant at the reachable state obtained by
issuing OTP "483920" at time 0 under a 300-second TTL. -/
theorem otp_expiry_iff_pending_witness :
    ((⟨some "483920", some 300, 0, none, AccountStatus.ACTIVE⟩
        : UserState).otp_expiry_time ≠ none
      ↔ otpPending ⟨some "483920", some 300, 0, none, AccountStatus.ACTIVE⟩) :=
  otp_expiry_iff_pending cfg3
    ⟨some "483920", some 300, 0, none, AccountStatus.ACTIVE⟩
    (by
      have h1 : (set_otp cfg3 initialState "483920" 0).1
          = ⟨some "483920", some 300, 0, none, AccountStatus.ACTIVE⟩ := by
        decide
      exact h1 ▸ Relation.ReflTransGen.single
        (Step.set_otp_step initialState "483920" 0 (by decide)))

/-- C10: in every state reachable from the fresh record by any sequence
of the six operations, a `LOCKED` status implies `last_failed_login` is
set — so the lockout-expiry branch of `is_locked_out` is reachable and a
locked record can self-unlock. -/
theorem locked_implies_last_failed_set (cfg : Config) (s : UserState)
    (h : Reachable cfg (fun _ => True) s)
    (hl : s.account_status = AccountStatus.LOCKED) :
    s.last_failed_login ≠ none := by
  revert hl
  induction h with
  | refl =>
      intro hl
      simp [initialState] at hl
  | @tail s0 s1 _ hstep ih =>
      intro hl
      cases hstep with
      | set_otp_step code now hP => exact ih hl
      | verify_otp_step code now b s' eff hv =>
          cases b with
          | true =>
              obtain ⟨h1, -⟩ := verify_otp_true_eq hv
              subst h1
              exact ih hl
          | false =>
              obtain ⟨h1, -⟩ := verify_otp_false_eq hv
              subst h1
              exact ih hl
      | handle_step now =>
          rw [handle_sets_last_failed]
          simp
      | reset_step =>
          simp [reset_failed_login_attempts] at hl
      | unlock_step =>
          rcases unlock_cases s0 with hcase | hcase
          · rw [hcase] at hl ⊢
            exact ih hl
          · rw [hcase] at hl
            exact absurd hl (by decide)
      | locked_out_step now =>
          rcases is_locked_out_state_cases cfg s0 now with hcase | hcase
          · rw [hcase] at hl ⊢
            exact ih hl
          · rw [hcase] at hl ⊢
            rcases unlock_cases s0 with hcase2 | hcase2
            · rw [hcase2] at hl ⊢
              exact ih hl
            · rw [hcase2] at hl
              exact absurd hl (by decide)

/-- Witness for C10: the locked state reached by one failed attempt under
a threshold of one has its `last_failed_login` set. -/
theorem locked_implies_last_failed_set_witness :
    (⟨none, none, 1, some 0, AccountStatus.LOCKED⟩
      : UserState).last_failed_login ≠ none :=
  locked_implies_last_failed_set cfg1
    ⟨none, none, 1, some 0, AccountStatus.LOCKED⟩
    (by
      have h1 : (handle_failed_login_attempts cfg1 initialState 0).1
          = ⟨none, none, 1, some 0, AccountStatus.LOCKED⟩ := by
        decide
      exact h1 ▸ Relation.ReflTransGen.single (Step.handle_step initialState 0))
    rfl

end SchoolAuth
